import Mathlib

/-!
Shallow embedding of the video/thumbnail upload handlers of
learn-file-storage-s3-golang-starter (src/handler_upload_video.go and the
thumbnail handler) and proofs about them.

External collaborators (uuid parsing, JWT validation, the multipart reader,
os/exec invocations of ffmpeg/ffprobe, the S3 client, the database) are
modelled as oracle fields of an environment record: each field holds the
outcome the collaborator returns to the handler.  The handler bodies
themselves are translated statement by statement; every externally visible
operation the handler performs is recorded in an event list, with Go `defer`
semantics (LIFO execution on every exit path, including panics) made
explicit.
-/

namespace Tubely

/-- Outcome of a Go call returning `(T, error)`; `panic` records a Go
run-time panic (e.g. integer division by zero), which aborts the handler
without a response but still runs deferred calls. -/
inductive GoOutcome (α : Type) where
  | ok (val : α)
  | err (msg : String)
  | panic (msg : String)
deriving DecidableEq

/-- Go's `/` on `int`: truncated (toward-zero) division; a zero divisor is a
run-time panic, so the result is `none` there. -/
def goDiv (a b : Int) : Option Int :=
  if b = 0 then none else some (Int.tdiv a b)

/-- The Go constant expression `16/9` (untyped integer constants divide with
truncation), as written in `getVideoAspectRatio`. -/
def goConst169 : Int := Int.tdiv 16 9

/-- One entry of ffprobe's `streams` JSON array, as decoded into the Go
struct `Stream` (src/handler_upload_video.go lines 160-163); a stream with
no width/height keys (e.g. an audio stream) decodes to zeroes. -/
structure MediaStream where
  width : Int
  height : Int
deriving DecidableEq

/-- The Go struct `VideoInfo` (lines 165-167). -/
structure VideoInfo where
  streams : List MediaStream
deriving DecidableEq

/-- What the `ffprobe` invocation inside `getVideoAspectRatio` can come back
with: a non-zero exit (captured stderr), output `json.Unmarshal` rejects, or
a decoded `VideoInfo`. -/
inductive ProbeOutcome where
  | execFail (stderr : String)
  | badOutput (msg : String)
  | ok (info : VideoInfo)
deriving DecidableEq

/-- Lines 198-204 of src/handler_upload_video.go: the classification of the
first stream's `(width, height)`.  `width/height == 16/9` is Go integer
division, and `height/width` is evaluated only when the first test fails. -/
def classifyAspect (width height : Int) : GoOutcome String :=
  match goDiv width height with
  | none => GoOutcome.panic "runtime error: integer divide by zero"
  | some q1 =>
    if q1 = goConst169 then GoOutcome.ok "landscape"
    else
      match goDiv height width with
      | none => GoOutcome.panic "runtime error: integer divide by zero"
      | some q2 =>
        if q2 = goConst169 then GoOutcome.ok "portrait"
        else GoOutcome.ok "other"

/-- `getVideoAspectRatio` (lines 169-206) given the outcome of its ffprobe
invocation: non-zero exit and unparsable output return the error; an empty
`streams` array returns the "no video streams found" error; otherwise the
first stream's dimensions are classified. -/
def getVideoAspectRatio (probe : ProbeOutcome) : GoOutcome String :=
  match probe with
  | ProbeOutcome.execFail stderr => GoOutcome.err stderr
  | ProbeOutcome.badOutput msg => GoOutcome.err msg
  | ProbeOutcome.ok info =>
    match info.streams with
    | [] => GoOutcome.err "no video streams found"
    | s :: _ => classifyAspect s.width s.height

/-- Split a character list at every occurrence of `c` (the separator is
dropped; adjacent separators and separators at the ends yield empty
pieces), the behaviour of Go's `strings.Split` for a one-character
separator. -/
def splitChar (c : Char) : List Char → List (List Char)
  | [] => [[]]
  | x :: xs =>
    let r := splitChar c xs
    if x = c then [] :: r
    else
      match r with
      | [] => [[x]]
      | y :: ys => (x :: y) :: ys

/-- Go's `strings.Split(s, sep)` as the handlers use it (both call sites
pass a one-character separator, "/" or ","). -/
def goSplit (s sep : String) : List String :=
  (splitChar (sep.toList.headD ',') s.toList).map String.mk

/-- The URL-safe base64 alphabet (RFC 4648 §5), which Go's
`base64.RawURLEncoding` uses with no padding. -/
def b64urlAlphabet : List Char :=
  "ABCDEFGHIJKLMNOPQRSTUVWXYZabcdefghijklmnopqrstuvwxyz0123456789-_".toList

/-- The alphabet character for a 6-bit group. -/
def b64c (n : Nat) : Char := b64urlAlphabet.getD n '?'

/-- `base64.RawURLEncoding.EncodeToString`: three input bytes become four
alphabet characters; a final group of one or two bytes becomes two or three
characters and no padding is emitted. -/
def base64RawURL : List (Fin 256) → List Char
  | [] => []
  | [a] => [b64c (a.val / 4), b64c (a.val % 4 * 16)]
  | [a, b] =>
    [b64c (a.val / 4), b64c (a.val % 4 * 16 + b.val / 16), b64c (b.val % 16 * 4)]
  | a :: b :: c :: rest =>
    b64c (a.val / 4) :: b64c (a.val % 4 * 16 + b.val / 16) ::
      b64c (b.val % 16 * 4 + c.val / 64) :: b64c (c.val % 64) ::
        base64RawURL rest

/-- The database's video record (internal/database.Video), as the handlers
read and write it. -/
structure Video where
  id : String
  userID : String
  videoURL : Option String
  thumbnailURL : Option String
  updatedAt : Nat
deriving DecidableEq

/-- The fields of `apiConfig` the two handlers and their helpers read. -/
structure ApiConfig where
  s3Bucket : String
  s3ClientNil : Bool
  assetsRoot : String
  port : String
deriving DecidableEq

/-- Every externally visible operation a handler performs, in program
order.  File-system, process, object-store and database calls each record
their arguments. -/
inductive Ev where
  | parseMultipartForm (maxMemory : Nat)
  | closeFormFile
  | createTemp (path : String)
  | copyToFile (path : String)
  | randRead (n : Nat)
  | ffmpegFastStart (inputPath outputPath : String)
  | openFile (path : String)
  | ffprobe (path : String)
  | putObject (bucket key contentType : String)
  | getVideo (id : String)
  | updateVideo (v : Video)
  | presignGet (bucket key : String)
  | removeFile (path : String)
  | closeFile (path : String)
  | createFile (path : String)
deriving DecidableEq

/-- What one handler execution produces: the HTTP status it responds with
(`panicked` set instead when a Go run-time panic aborts it before any
response) and the ordered list of events, deferred calls included. -/
structure HandlerResult where
  status : Nat
  panicked : Bool
  events : List Ev
deriving DecidableEq

/-- Finish normally: respond with `status`, after running the registered
deferred calls (`defers` is kept in LIFO execution order). -/
def finish (status : Nat) (evs defers : List Ev) : HandlerResult :=
  { status := status, panicked := false, events := evs ++ defers }

/-- Finish by run-time panic: no response, but deferred calls still run. -/
def finishPanic (evs defers : List Ev) : HandlerResult :=
  { status := 0, panicked := true, events := evs ++ defers }

/-- Oracle outcomes of every external call `handlerUploadVideo` makes, in
the order the handler makes them.  A `none`/`false` field means that call
returns an error to the handler. -/
structure VideoUploadEnv where
  /-- `uuid.Parse` of the path value. -/
  videoID : Option String
  /-- `auth.GetBearerToken`. -/
  bearerToken : Option String
  /-- `auth.ValidateJWT`. -/
  jwtUserID : Option String
  /-- `r.FormFile "video"`. -/
  formFileOk : Bool
  /-- `mime.ParseMediaType` of the part's Content-Type header. -/
  mediaTypeParse : Option String
  /-- `os.CreateTemp`: the temp file's path. -/
  tempFilePath : Option String
  /-- `io.Copy` of the body into the temp file. -/
  copyOk : Bool
  /-- `rand.Read`: the 32 bytes it fills the buffer with. -/
  randBytes : Option (List (Fin 256))
  /-- the ffmpeg faststart remux exits zero. -/
  ffmpegOk : Bool
  /-- `os.Open` of the processed file. -/
  openProcessedOk : Bool
  /-- the ffprobe invocation inside `getVideoAspectRatio`. -/
  probe : ProbeOutcome
  /-- `cfg.s3Client.PutObject`. -/
  putObjectOk : Bool
  /-- `cfg.db.GetVideo`. -/
  dbVideo : Option Video
  /-- `cfg.db.UpdateVideo`. -/
  updateOk : Bool
  /-- `PresignGetObject`: the signed URL. -/
  presignURL : Option String
  /-- `time.Now()` for the record's UpdatedAt. -/
  now : Nat
deriving DecidableEq

/-- `generatePresignedURL` (lines 223-237): presign a GetObject for the
bucket and key; the SDK outcome is the oracle `presign`. -/
def generatePresignedURL (presign : Option String) (bucket key : String) :
    GoOutcome String × List Ev :=
  match presign with
  | some url => (GoOutcome.ok url, [Ev.presignGet bucket key])
  | none => (GoOutcome.err "failed to presign", [Ev.presignGet bucket key])

/-- `dbVideoToSignedVideo` (lines 239-262): require a non-nil VideoURL of
the exact form `bucket,key`, a non-nil S3 client, then replace the URL with
a presigned one. -/
def dbVideoToSignedVideo (cfg : ApiConfig) (presign : Option String)
    (video : Video) : GoOutcome Video × List Ev :=
  match video.videoURL with
  | none => (GoOutcome.err "video URL is nil", [])
  | some url =>
    let urlSplit := goSplit url ","
    -- the source tests `len(url_split) != 2` and returns the error early
    if urlSplit.length = 2 then
      let bucket := urlSplit.getD 0 ""
      let key := urlSplit.getD 1 ""
      if cfg.s3ClientNil then (GoOutcome.err "s3 client is nil", [])
      else
        let pres := generatePresignedURL presign bucket key
        match pres.1 with
        | GoOutcome.ok u =>
          (GoOutcome.ok { video with videoURL := some u }, pres.2)
        | GoOutcome.err e =>
          (GoOutcome.err ("failed to generate presigned URL: " ++ e), pres.2)
        | GoOutcome.panic p => (GoOutcome.panic p, pres.2)
    else (GoOutcome.err ("invalid video URL format: " ++ url), [])

/-- Lines 151-157: after `UpdateVideo` succeeded, an error from
`dbVideoToSignedVideo` responds 500, success responds 200 with the signed
record. -/
def respondAfterSign (out : GoOutcome Video) (evs defers : List Ev) : HandlerResult :=
  match out with
  | GoOutcome.ok _ => finish 200 evs defers
  | GoOutcome.err _ => finish 500 evs defers
  | GoOutcome.panic _ => finishPanic evs defers

/-- `handlerUploadVideo` (lines 26-158), statement by statement.  Responses:
400 invalid id / unparsable form / bad media type, 401 missing or invalid
JWT, 500 any internal failure, 403 when the record's owner is not the
caller, 200 on success.  Deferred closes/removes are registered exactly
where the source registers them and run on every later exit. -/
def handlerUploadVideo (cfg : ApiConfig) (env : VideoUploadEnv) : HandlerResult :=
  match env.videoID with
  | none => finish 400 [] []
  | some videoID =>
  match env.bearerToken with
  | none => finish 401 [] []
  | some _ =>
  match env.jwtUserID with
  | none => finish 401 [] []
  | some userID =>
  -- r.ParseMultipartForm(10 << 30): the returned error is discarded
  let evs := [Ev.parseMultipartForm (10 <<< 30)]
  -- defer file.Close()
  let defers := [Ev.closeFormFile]
  if env.formFileOk = false then finish 400 evs defers
  else
  match env.mediaTypeParse with
  | none => finish 400 evs defers
  | some mediaType =>
  if mediaType ≠ "video/mp4" then finish 400 evs defers
  else
  let fileExt := (goSplit mediaType "/").getD 1 ""
  match env.tempFilePath with
  | none => finish 500 evs defers
  | some tempPath =>
  let evs := evs ++ [Ev.createTemp tempPath]
  -- defer os.Remove(temp_file.Name()); defer temp_file.Close()
  let defers := Ev.closeFile tempPath :: Ev.removeFile tempPath :: defers
  let evs := evs ++ [Ev.copyToFile tempPath]
  if env.copyOk = false then finish 500 evs defers
  else
  let evs := evs ++ [Ev.randRead 32]
  match env.randBytes with
  | none => finish 500 evs defers
  | some randBytes =>
  -- processVideoForFastStart(temp_file.Name()) (lines 208-221)
  let processedFilePath := tempPath ++ ".processing"
  let evs := evs ++ [Ev.ffmpegFastStart tempPath processedFilePath]
  if env.ffmpegOk = false then finish 500 evs defers
  else
  -- defer os.Remove(processedFilePath)
  let defers := Ev.removeFile processedFilePath :: defers
  let evs := evs ++ [Ev.openFile processedFilePath]
  if env.openProcessedOk = false then finish 500 evs defers
  else
  let evs := evs ++ [Ev.ffprobe tempPath]
  match getVideoAspectRatio env.probe with
  | GoOutcome.panic _ => finishPanic evs defers
  | GoOutcome.err _ => finish 500 evs defers
  | GoOutcome.ok aspectPart =>
  let fn := String.mk (base64RawURL randBytes)
  let s3Key := aspectPart ++ "/" ++ fn ++ "." ++ fileExt
  let dataUrl := cfg.s3Bucket ++ "," ++ s3Key
  let evs := evs ++ [Ev.putObject cfg.s3Bucket s3Key mediaType]
  if env.putObjectOk = false then finish 500 evs defers
  else
  let evs := evs ++ [Ev.getVideo videoID]
  match env.dbVideo with
  | none => finish 500 evs defers
  | some video =>
  if video.userID ≠ userID then finish 403 evs defers
  else
  let video1 := { video with videoURL := some dataUrl, updatedAt := env.now }
  let evs := evs ++ [Ev.updateVideo video1]
  if env.updateOk = false then finish 500 evs defers
  else
  let signed := dbVideoToSignedVideo cfg env.presignURL video1
  respondAfterSign signed.1 (evs ++ signed.2) defers

/-- Oracle outcomes of every external call `handlerUploadThumbnail` makes
(src/unnamed/part_000). -/
structure ThumbUploadEnv where
  videoID : Option String
  bearerToken : Option String
  jwtUserID : Option String
  formFileOk : Bool
  mediaTypeParse : Option String
  /-- `rand.Read`. -/
  randBytes : Option (List (Fin 256))
  /-- `os.Create` of the asset file. -/
  createOk : Bool
  copyOk : Bool
  dbVideo : Option Video
  updateOk : Bool
  now : Nat
deriving DecidableEq

/-- `handlerUploadThumbnail` (src/unnamed/part_000 lines 19-109).  The
asset path is `filepath.Join(cfg.assetsRoot, prefix-dot-ext)`, modelled as
the joined string with a single separator. -/
def handlerUploadThumbnail (cfg : ApiConfig) (env : ThumbUploadEnv) : HandlerResult :=
  match env.videoID with
  | none => finish 400 [] []
  | some videoID =>
  match env.bearerToken with
  | none => finish 401 [] []
  | some _ =>
  match env.jwtUserID with
  | none => finish 401 [] []
  | some userID =>
  -- r.ParseMultipartForm(10 << 20): the returned error is discarded
  let evs := [Ev.parseMultipartForm (10 <<< 20)]
  -- defer file.Close()
  let defers := [Ev.closeFormFile]
  if env.formFileOk = false then finish 400 evs defers
  else
  match env.mediaTypeParse with
  | none => finish 400 evs defers
  | some mediaType =>
  if mediaType ≠ "image/jpeg" ∧ mediaType ≠ "image/png" then finish 400 evs defers
  else
  let fileExt := (goSplit mediaType "/").getD 1 ""
  let evs := evs ++ [Ev.randRead 32]
  match env.randBytes with
  | none => finish 500 evs defers
  | some randBytes =>
  let fprefixStr := String.mk (base64RawURL randBytes)
  let thumbnailPath := cfg.assetsRoot ++ "/" ++ fprefixStr ++ "." ++ fileExt
  let evs := evs ++ [Ev.createFile thumbnailPath]
  if env.createOk = false then finish 500 evs defers
  else
  -- defer tf.Close()
  let defers := Ev.closeFile thumbnailPath :: defers
  let evs := evs ++ [Ev.copyToFile thumbnailPath]
  if env.copyOk = false then finish 500 evs defers
  else
  let dataUrl := "http://localhost:" ++ cfg.port ++ "/" ++ thumbnailPath
  let evs := evs ++ [Ev.getVideo videoID]
  match env.dbVideo with
  | none => finish 500 evs defers
  | some video =>
  if video.userID ≠ userID then finish 403 evs defers
  else
  let video1 := { video with thumbnailURL := some dataUrl, updatedAt := env.now }
  let evs := evs ++ [Ev.updateVideo video1]
  if env.updateOk = false then finish 500 evs defers
  else
  finish 200 evs defers

/-- The spec's pipeline stages that leave an observable event (`Received`
is the request's arrival and leaves none). -/
inductive Stage where
  | staged
  | transcoded
  | probed
  | uploaded
  | committed
deriving DecidableEq

/-- The pipeline stage an event belongs to: temp-file creation and the body
copy stage the upload, the ffmpeg remux transcodes, the ffprobe run probes,
`PutObject` uploads, `UpdateVideo` commits; every other event (defers,
random bytes, database read, presigning) belongs to no stage. -/
def stageOf : Ev → Option Stage
  | Ev.createTemp _ => some Stage.staged
  | Ev.copyToFile _ => some Stage.staged
  | Ev.ffmpegFastStart _ _ => some Stage.transcoded
  | Ev.ffprobe _ => some Stage.probed
  | Ev.putObject _ _ _ => some Stage.uploaded
  | Ev.updateVideo _ => some Stage.committed
  | _ => none

/-- A deployment configuration for concrete runs. -/
def cfg0 : ApiConfig :=
  { s3Bucket := "tubely-bkt", s3ClientNil := false,
    assetsRoot := "assets", port := "8091" }

/-- 32 zero bytes as the `rand.Read` outcome of concrete runs. -/
def bytes0 : List (Fin 256) := List.replicate 32 0

/-- A stored video record owned by user "alice". -/
def video0 : Video :=
  { id := "v1", userID := "alice", videoURL := none, thumbnailURL := none,
    updatedAt := 0 }

/-- The same record but owned by user "bob". -/
def videoBob : Video := { video0 with userID := "bob" }

/-- A fully successful video upload by "alice": every collaborator call
succeeds and ffprobe reports one 1920x1080 stream. -/
def env0 : VideoUploadEnv :=
  { videoID := some "v1", bearerToken := some "tok", jwtUserID := some "alice",
    formFileOk := true, mediaTypeParse := some "video/mp4",
    tempFilePath := some "/tmp/tubely-upload.mp4", copyOk := true,
    randBytes := some bytes0, ffmpegOk := true, openProcessedOk := true,
    probe := ProbeOutcome.ok ⟨[⟨1920, 1080⟩]⟩, putObjectOk := true,
    dbVideo := some video0, updateOk := true, presignURL := some "signed-url",
    now := 99 }

/-- The same run, but the stored record belongs to "bob". -/
def envForbidden : VideoUploadEnv := { env0 with dbVideo := some videoBob }

/-- The same run, but presigning fails after the record was updated. -/
def envPresignFail : VideoUploadEnv := { env0 with presignURL := none }

/-- The same run, but the upload declares `application/pdf`. -/
def envBadType : VideoUploadEnv :=
  { env0 with mediaTypeParse := some "application/pdf" }

/-- A fully successful thumbnail upload by "alice". -/
def tenv0 : ThumbUploadEnv :=
  { videoID := some "v1", bearerToken := some "tok", jwtUserID := some "alice",
    formFileOk := true, mediaTypeParse := some "image/png",
    randBytes := some bytes0, createOk := true, copyOk := true,
    dbVideo := some video0, updateOk := true, now := 99 }

/-- The same thumbnail run against "bob"'s record. -/
def tenvForbidden : ThumbUploadEnv := { tenv0 with dbVideo := some videoBob }

/-- The same thumbnail run declaring `application/pdf`. -/
def tenvBadType : ThumbUploadEnv :=
  { tenv0 with mediaTypeParse := some "application/pdf" }

example : classifyAspect 1920 1080 = GoOutcome.ok "landscape" := by decide
example : classifyAspect 1080 1920 = GoOutcome.ok "portrait" := by decide
example : classifyAspect 1000 1000 = GoOutcome.ok "landscape" := by decide
example : classifyAspect 4000 1000 = GoOutcome.ok "other" := by decide

/-- C2: the claim's characterization of the classifier fails: the `portrait`
clause ("portrait exactly when height div width equals 16 div 9") is wrong
at the positive pair (1, 1), where `1 div 1 = 1 = 16 div 9` holds and yet the
code returns `landscape` (the `landscape` test fires first). -/
theorem classifyAspect_portrait_clause_fails :
    ¬ (classifyAspect 1 1 = GoOutcome.ok "portrait" ↔
        Int.tdiv 1 1 = Int.tdiv 16 9) := by decide

/-- C2 (amended): for positive `width` and `height` the classifier returns
`landscape` exactly when `width div height = 16 div 9` (truncated integer
division), `portrait` exactly when that first test fails and
`height div width = 16 div 9`, and `other` exactly when both tests fail:
the `landscape` test is applied first, so a pair satisfying both integer
ratio tests is `landscape`, not `portrait`. -/
theorem classifyAspect_characterization (w h : Int) (hw : 0 < w) (hh : 0 < h) :
    (classifyAspect w h = GoOutcome.ok "landscape" ↔
      Int.tdiv w h = Int.tdiv 16 9) ∧
    (classifyAspect w h = GoOutcome.ok "portrait" ↔
      (Int.tdiv w h ≠ Int.tdiv 16 9 ∧ Int.tdiv h w = Int.tdiv 16 9)) ∧
    (classifyAspect w h = GoOutcome.ok "other" ↔
      (Int.tdiv w h ≠ Int.tdiv 16 9 ∧ Int.tdiv h w ≠ Int.tdiv 16 9)) := by
  have hwz : w ≠ 0 := by omega
  have hhz : h ≠ 0 := by omega
  simp only [classifyAspect, goDiv, goConst169, if_neg hwz, if_neg hhz]
  by_cases h1 : Int.tdiv w h = Int.tdiv 16 9 <;>
    by_cases h2 : Int.tdiv h w = Int.tdiv 16 9 <;>
      simp [h1, h2]

/-- C2 (amended), instantiated at the concrete pair (16, 9). -/
theorem classifyAspect_characterization_witness :
    (0 : Int) < 16 ∧ (0 : Int) < 9 ∧
    ((classifyAspect 16 9 = GoOutcome.ok "landscape" ↔
        Int.tdiv 16 9 = Int.tdiv 16 9) ∧
      (classifyAspect 16 9 = GoOutcome.ok "portrait" ↔
        (Int.tdiv 16 9 ≠ Int.tdiv 16 9 ∧ Int.tdiv 9 16 = Int.tdiv 16 9)) ∧
      (classifyAspect 16 9 = GoOutcome.ok "other" ↔
        (Int.tdiv 16 9 ≠ Int.tdiv 16 9 ∧ Int.tdiv 9 16 ≠ Int.tdiv 16 9))) :=
  ⟨by decide, by decide,
    classifyAspect_characterization 16 9 (by decide) (by decide)⟩

/-- C3: of the spec's three test vectors, the first two hold but the third
fails: `classify(1000,1000)` is `landscape`, not `other`, because the Go
expression `16/9` evaluates to `1` and `1000/1000 = 1` as well. -/
theorem classifyAspect_square_vector_fails :
    classifyAspect 1920 1080 = GoOutcome.ok "landscape" ∧
    classifyAspect 1080 1920 = GoOutcome.ok "portrait" ∧
    classifyAspect 1000 1000 = GoOutcome.ok "landscape" := by decide

/-- C4: division by a zero dimension is not guarded: with a zero height the
very first test `width/height == 16/9` divides by zero (a Go run-time
panic), and with a zero width (and non-zero height) the second test
`height/width` does; a probed first stream with no dimensions (an audio
stream decodes to width 0, height 0) panics the handler instead of being
treated as `other` or an error. -/
theorem classifyAspect_zero_dimension_panics :
    classifyAspect 1000 0 = GoOutcome.panic "runtime error: integer divide by zero" ∧
    classifyAspect 0 1000 = GoOutcome.panic "runtime error: integer divide by zero" ∧
    getVideoAspectRatio (ProbeOutcome.ok ⟨[⟨0, 0⟩]⟩) =
      GoOutcome.panic "runtime error: integer divide by zero" := by decide

example : goSplit "video/mp4" "/" = ["video", "mp4"] := by decide
example : goSplit "bkt,landscape/x.mp4" "," = ["bkt", "landscape/x.mp4"] := by decide

example : String.mk (base64RawURL [0x14, 0xfb, 0x9c, 0x03, 0xd9, 0x7e]) = "FPucA9l-" := by
  decide
example : String.mk (base64RawURL [0x14, 0xfb, 0x9c, 0x03, 0xd9]) = "FPucA9k" := by
  decide

theorem respondAfterSign_status_ne (out : GoOutcome Video) (evs defers : List Ev) :
    (respondAfterSign out evs defers).status ≠ 413 := by
  cases out <;> simp [respondAfterSign, finish, finishPanic]

theorem respondAfterSign_events (out : GoOutcome Video) (evs defers : List Ev) :
    (respondAfterSign out evs defers).events = evs ++ defers := by
  cases out <;> rfl

/-- The only events `dbVideoToSignedVideo` emits are presign requests. -/
theorem mem_signed_events (cfg : ApiConfig) (p : Option String) (vid : Video)
    (e : Ev) :
    e ∈ (dbVideoToSignedVideo cfg p vid).2 → ∃ b k, e = Ev.presignGet b k := by
  unfold dbVideoToSignedVideo generatePresignedURL
  repeat' split
  all_goals intro h
  all_goals (try (rw [apply_ite Prod.snd] at h; split at h))
  all_goals simp_all

theorem updateVideo_not_mem_signed (cfg : ApiConfig) (p : Option String)
    (vid v' : Video) : Ev.updateVideo v' ∉ (dbVideoToSignedVideo cfg p vid).2 :=
  fun h => by
    obtain ⟨b, k, hk⟩ := mem_signed_events cfg p vid _ h
    exact Ev.noConfusion hk

theorem createTemp_not_mem_signed (cfg : ApiConfig) (p : Option String)
    (vid : Video) (q : String) :
    Ev.createTemp q ∉ (dbVideoToSignedVideo cfg p vid).2 :=
  fun h => by
    obtain ⟨b, k, hk⟩ := mem_signed_events cfg p vid _ h
    exact Ev.noConfusion hk

theorem ffmpeg_not_mem_signed (cfg : ApiConfig) (p : Option String)
    (vid : Video) (q r : String) :
    Ev.ffmpegFastStart q r ∉ (dbVideoToSignedVideo cfg p vid).2 :=
  fun h => by
    obtain ⟨b, k, hk⟩ := mem_signed_events cfg p vid _ h
    exact Ev.noConfusion hk

theorem signed_filterMap_stageOf (cfg : ApiConfig) (p : Option String)
    (vid : Video) :
    ((dbVideoToSignedVideo cfg p vid).2.filterMap stageOf) = [] := by
  rw [List.filterMap_eq_nil_iff]
  intro e he
  obtain ⟨b, k, hk⟩ := mem_signed_events cfg p vid e he
  subst hk
  rfl

set_option maxHeartbeats 1000000 in
/-- No branch of the video handler responds 413. -/
theorem video_status_ne_413 (cfg : ApiConfig) (env : VideoUploadEnv) :
    (handlerUploadVideo cfg env).status ≠ 413 := by
  unfold handlerUploadVideo
  repeat' split
  all_goals first
    | (simp only [finish, finishPanic]; decide)
    | apply respondAfterSign_status_ne

set_option maxHeartbeats 1000000 in
/-- No branch of the thumbnail handler responds 413. -/
theorem thumb_status_ne_413 (cfg : ApiConfig) (env : ThumbUploadEnv) :
    (handlerUploadThumbnail cfg env).status ≠ 413 := by
  unfold handlerUploadThumbnail
  repeat' split
  all_goals (simp only [finish, finishPanic]; decide)

set_option maxHeartbeats 1000000 in
/-- Every `UpdateVideo` call the video handler makes writes a record whose
owner is the authenticated caller. -/
theorem video_update_owner (cfg : ApiConfig) (env : VideoUploadEnv) (v' : Video) :
    Ev.updateVideo v' ∈ (handlerUploadVideo cfg env).events →
      env.jwtUserID = some v'.userID := by
  unfold handlerUploadVideo
  repeat' split
  all_goals intro h
  all_goals simp_all [finish, finishPanic, respondAfterSign_events,
    updateVideo_not_mem_signed]

set_option maxHeartbeats 1000000 in
/-- Every `UpdateVideo` call the thumbnail handler makes writes a record
whose owner is the authenticated caller. -/
theorem thumb_update_owner (cfg : ApiConfig) (env : ThumbUploadEnv) (v' : Video) :
    Ev.updateVideo v' ∈ (handlerUploadThumbnail cfg env).events →
      env.jwtUserID = some v'.userID := by
  unfold handlerUploadThumbnail
  repeat' split
  all_goals intro h
  all_goals simp_all [finish, finishPanic]

set_option maxHeartbeats 1000000 in
/-- On every exit path: once the staged temp file was created, its removal
runs (a deferred `os.Remove` registered right after creation). -/
theorem video_staged_removed (cfg : ApiConfig) (env : VideoUploadEnv) (p : String) :
    Ev.createTemp p ∈ (handlerUploadVideo cfg env).events →
      Ev.removeFile p ∈ (handlerUploadVideo cfg env).events := by
  unfold handlerUploadVideo
  repeat' split
  all_goals intro h
  all_goals simp_all [finish, finishPanic, respondAfterSign_events,
    createTemp_not_mem_signed]

set_option maxHeartbeats 1000000 in
/-- On every exit path: once the fast-start remux succeeded (so the
processed file exists), its removal runs. -/
theorem video_processed_removed (cfg : ApiConfig) (env : VideoUploadEnv)
    (pIn pOut : String) :
    Ev.ffmpegFastStart pIn pOut ∈ (handlerUploadVideo cfg env).events →
      env.ffmpegOk = true →
        Ev.removeFile pOut ∈ (handlerUploadVideo cfg env).events := by
  unfold handlerUploadVideo
  repeat' split
  all_goals intro h hok
  all_goals simp_all [finish, finishPanic, respondAfterSign_events,
    ffmpeg_not_mem_signed]

set_option maxHeartbeats 1000000 in
/-- C5 (amended): in every execution of the video handler the stages run
strictly in the order Received, Staged, Transcoded, Probed, Uploaded,
Committed — the trace's stage events always form a subsequence of
stage-the-body (create + copy), transcode, probe, upload, commit.  The
fast-start transcoder is invoked on the staged file BEFORE the media
prober, not after as the claim states. -/
theorem video_stage_order (cfg : ApiConfig) (env : VideoUploadEnv) :
    List.Sublist ((handlerUploadVideo cfg env).events.filterMap stageOf)
      [Stage.staged, Stage.staged, Stage.transcoded, Stage.probed,
        Stage.uploaded, Stage.committed] := by
  unfold handlerUploadVideo
  repeat' split
  all_goals simp [finish, finishPanic, respondAfterSign_events, stageOf,
    signed_filterMap_stageOf]

/-- C5: the claimed stage order is violated on a fully successful run: the
trace's stages are staged, staged, transcoded, probed, uploaded, committed —
the ffmpeg fast-start remux (trace position 4) runs BEFORE the ffprobe
inspection (trace position 6), while the claim puts Probed before
Transcoded. -/
theorem video_trace_transcode_before_probe :
    (handlerUploadVideo cfg0 env0).events.filterMap stageOf =
      [Stage.staged, Stage.staged, Stage.transcoded, Stage.probed,
        Stage.uploaded, Stage.committed] ∧
    (handlerUploadVideo cfg0 env0).events.indexOf
        (Ev.ffmpegFastStart "/tmp/tubely-upload.mp4"
          "/tmp/tubely-upload.mp4.processing") = 4 ∧
    (handlerUploadVideo cfg0 env0).events.indexOf
        (Ev.ffprobe "/tmp/tubely-upload.mp4") = 6 ∧
    (handlerUploadVideo cfg0 env0).status = 200 := by decide

/-- C10: when `UpdateVideo` succeeds but the presigned-URL conversion then
fails, the handler responds 500 even though the record was already
persisted with the new `bucket,key` reference: an error response does not
imply the record is unchanged. -/
theorem error_response_after_commit :
    (handlerUploadVideo cfg0 envPresignFail).status = 500 ∧
    Ev.updateVideo
        { id := "v1", userID := "alice",
          videoURL := some ("tubely-bkt," ++ ("landscape/" ++
            String.mk (base64RawURL bytes0) ++ "." ++ "mp4")),
          thumbnailURL := none, updatedAt := 99 }
      ∈ (handlerUploadVideo cfg0 envPresignFail).events := by decide

/-- C8: no execution of either handler ever responds 413 PayloadTooLarge —
`r.ParseMultipartForm` receives an in-memory threshold (10 shl 30 =
10737418240 bytes, ten times the "1 GB limit" its comment states; 10 shl
20 for thumbnails), not a request-size cap, its error is discarded, and no
size check exists on any path. -/
theorem no_payload_too_large_response (cfg cfg2 : ApiConfig)
    (env : VideoUploadEnv) (tenv : ThumbUploadEnv) :
    (handlerUploadVideo cfg env).status ≠ 413 ∧
    (handlerUploadThumbnail cfg2 tenv).status ≠ 413 ∧
    Ev.parseMultipartForm 10737418240 ∈ (handlerUploadVideo cfg0 env0).events ∧
    Ev.parseMultipartForm 10485760 ∈ (handlerUploadThumbnail cfg0 tenv0).events :=
  ⟨video_status_ne_413 cfg env, thumb_status_ne_413 cfg2 tenv,
    by decide, by decide⟩

/-- A successful classification is one of the three partition labels. -/
theorem getVideoAspectRatio_ok_values (p : ProbeOutcome) (a : String) :
    getVideoAspectRatio p = GoOutcome.ok a →
      a = "landscape" ∨ a = "portrait" ∨ a = "other" := by
  unfold getVideoAspectRatio classifyAspect goDiv
  repeat' split
  all_goals (intro h; simp_all)

/-- C7: on every exit path of the video handler — success, validation
failure, any stage failure, even a run-time panic — the staged temp file's
removal runs once the file was created, and the processed file's removal
runs once the remux produced it (Go defers run on every exit). -/
theorem temp_files_removed_on_all_paths (cfg : ApiConfig) (env : VideoUploadEnv) :
    (∀ p, Ev.createTemp p ∈ (handlerUploadVideo cfg env).events →
      Ev.removeFile p ∈ (handlerUploadVideo cfg env).events) ∧
    (∀ pIn pOut,
      Ev.ffmpegFastStart pIn pOut ∈ (handlerUploadVideo cfg env).events →
        env.ffmpegOk = true →
          Ev.removeFile pOut ∈ (handlerUploadVideo cfg env).events) :=
  ⟨fun p => video_staged_removed cfg env p,
    fun pIn pOut => video_processed_removed cfg env pIn pOut⟩

/-- C1: a caller who reaches the ownership check of either handler but
does not own the record gets 403 Forbidden and no `UpdateVideo` is issued —
although the video's S3 upload has already completed by then — and, over
all executions of both handlers, every record an `UpdateVideo` call
persists is owned by the authenticated caller. -/
theorem ownership_check_forbidden (cfg : ApiConfig) (env : VideoUploadEnv)
    (tenv : ThumbUploadEnv)
    (vID tok uid tempPath : String) (bs : List (Fin 256)) (aspect : String)
    (vid : Video) (tID ttok tuid tmt : String) (tbs : List (Fin 256))
    (tvid : Video)
    (h1 : env.videoID = some vID)
    (h2 : env.bearerToken = some tok)
    (h3 : env.jwtUserID = some uid)
    (h4 : env.formFileOk = true)
    (h5 : env.mediaTypeParse = some "video/mp4")
    (h6 : env.tempFilePath = some tempPath)
    (h7 : env.copyOk = true)
    (h8 : env.randBytes = some bs)
    (h9 : env.ffmpegOk = true)
    (h10 : env.openProcessedOk = true)
    (h11 : getVideoAspectRatio env.probe = GoOutcome.ok aspect)
    (h12 : env.putObjectOk = true)
    (h13 : env.dbVideo = some vid)
    (h14 : vid.userID ≠ uid)
    (t1 : tenv.videoID = some tID)
    (t2 : tenv.bearerToken = some ttok)
    (t3 : tenv.jwtUserID = some tuid)
    (t4 : tenv.formFileOk = true)
    (t5 : tenv.mediaTypeParse = some tmt)
    (t6 : tmt = "image/jpeg" ∨ tmt = "image/png")
    (t7 : tenv.randBytes = some tbs)
    (t8 : tenv.createOk = true)
    (t9 : tenv.copyOk = true)
    (t10 : tenv.dbVideo = some tvid)
    (t11 : tvid.userID ≠ tuid) :
    (handlerUploadVideo cfg env).status = 403 ∧
    (∀ v', Ev.updateVideo v' ∉ (handlerUploadVideo cfg env).events) ∧
    (∃ k, Ev.putObject cfg.s3Bucket k "video/mp4" ∈
      (handlerUploadVideo cfg env).events) ∧
    (handlerUploadThumbnail cfg tenv).status = 403 ∧
    (∀ v', Ev.updateVideo v' ∉ (handlerUploadThumbnail cfg tenv).events) ∧
    (∀ cfg2 env2 v', Ev.updateVideo v' ∈ (handlerUploadVideo cfg2 env2).events →
      env2.jwtUserID = some v'.userID) ∧
    (∀ cfg2 tenv2 v',
      Ev.updateVideo v' ∈ (handlerUploadThumbnail cfg2 tenv2).events →
        tenv2.jwtUserID = some v'.userID) := by
  refine ⟨?_, ?_, ?_, ?_, ?_,
    fun c e v => video_update_owner c e v,
    fun c e v => thumb_update_owner c e v⟩
  · simp [handlerUploadVideo, h1, h2, h3, h4, h5, h6, h7, h8, h9, h10, h11,
      h12, h13, h14, finish]
  · intro v'
    simp [handlerUploadVideo, h1, h2, h3, h4, h5, h6, h7, h8, h9, h10, h11,
      h12, h13, h14, finish]
  · refine ⟨aspect ++ "/" ++ String.mk (base64RawURL bs) ++ "." ++
      (goSplit "video/mp4" "/").getD 1 "", ?_⟩
    simp [handlerUploadVideo, h1, h2, h3, h4, h5, h6, h7, h8, h9, h10, h11,
      h12, h13, h14, finish]
  · rcases t6 with ht | ht <;> subst ht <;>
      simp [handlerUploadThumbnail, t1, t2, t3, t4, t5, t7, t8, t9, t10, t11,
        finish]
  · intro v'
    rcases t6 with ht | ht <;> subst ht <;>
      simp [handlerUploadThumbnail, t1, t2, t3, t4, t5, t7, t8, t9, t10, t11,
        finish]

/-- C1, instantiated: "alice" uploads to "bob"'s record in both handlers. -/
theorem ownership_check_forbidden_witness :
    (handlerUploadVideo cfg0 envForbidden).status = 403 ∧
    (∀ v', Ev.updateVideo v' ∉ (handlerUploadVideo cfg0 envForbidden).events) ∧
    (∃ k, Ev.putObject cfg0.s3Bucket k "video/mp4" ∈
      (handlerUploadVideo cfg0 envForbidden).events) ∧
    (handlerUploadThumbnail cfg0 tenvForbidden).status = 403 ∧
    (∀ v', Ev.updateVideo v' ∉ (handlerUploadThumbnail cfg0 tenvForbidden).events) ∧
    (∀ cfg2 env2 v', Ev.updateVideo v' ∈ (handlerUploadVideo cfg2 env2).events →
      env2.jwtUserID = some v'.userID) ∧
    (∀ cfg2 tenv2 v',
      Ev.updateVideo v' ∈ (handlerUploadThumbnail cfg2 tenv2).events →
        tenv2.jwtUserID = some v'.userID) :=
  ownership_check_forbidden cfg0 envForbidden tenvForbidden
    "v1" "tok" "alice" "/tmp/tubely-upload.mp4" bytes0 "landscape" videoBob
    "v1" "tok" "alice" "image/png" bytes0 videoBob
    rfl rfl rfl rfl rfl rfl rfl rfl rfl rfl (by decide) rfl rfl (by decide)
    rfl rfl rfl rfl rfl (Or.inr rfl) rfl rfl rfl rfl (by decide)

/-- C6: a request (past auth, with a readable form file) whose declared
content-type parses to anything outside the allow-list — `video/mp4` for
video, `image/jpeg`/`image/png` for thumbnails — gets 400 BadRequest, and
the only events before that response are the multipart parse and the
deferred form-file close: no temp or asset file is created, nothing is
copied, and no object-store call happens. -/
theorem bad_content_type_no_io (cfg : ApiConfig) (env : VideoUploadEnv)
    (tenv : ThumbUploadEnv) (vID tok uid mt tID ttok tuid tmt : String)
    (h1 : env.videoID = some vID)
    (h2 : env.bearerToken = some tok)
    (h3 : env.jwtUserID = some uid)
    (h4 : env.formFileOk = true)
    (h5 : env.mediaTypeParse = some mt)
    (h6 : mt ≠ "video/mp4")
    (t1 : tenv.videoID = some tID)
    (t2 : tenv.bearerToken = some ttok)
    (t3 : tenv.jwtUserID = some tuid)
    (t4 : tenv.formFileOk = true)
    (t5 : tenv.mediaTypeParse = some tmt)
    (t6 : tmt ≠ "image/jpeg")
    (t7 : tmt ≠ "image/png") :
    (handlerUploadVideo cfg env).status = 400 ∧
    (handlerUploadVideo cfg env).events =
      [Ev.parseMultipartForm (10 <<< 30), Ev.closeFormFile] ∧
    (∀ p, Ev.createTemp p ∉ (handlerUploadVideo cfg env).events) ∧
    (∀ p, Ev.copyToFile p ∉ (handlerUploadVideo cfg env).events) ∧
    (∀ b k c, Ev.putObject b k c ∉ (handlerUploadVideo cfg env).events) ∧
    (handlerUploadThumbnail cfg tenv).status = 400 ∧
    (handlerUploadThumbnail cfg tenv).events =
      [Ev.parseMultipartForm (10 <<< 20), Ev.closeFormFile] ∧
    (∀ p, Ev.createFile p ∉ (handlerUploadThumbnail cfg tenv).events) ∧
    (∀ p, Ev.copyToFile p ∉ (handlerUploadThumbnail cfg tenv).events) ∧
    (∀ b k c, Ev.putObject b k c ∉ (handlerUploadThumbnail cfg tenv).events) := by
  have hv : handlerUploadVideo cfg env =
      finish 400 [Ev.parseMultipartForm (10 <<< 30)] [Ev.closeFormFile] := by
    simp [handlerUploadVideo, h1, h2, h3, h4, h5, h6]
  have htb : handlerUploadThumbnail cfg tenv =
      finish 400 [Ev.parseMultipartForm (10 <<< 20)] [Ev.closeFormFile] := by
    simp [handlerUploadThumbnail, t1, t2, t3, t4, t5, t6, t7]
  refine ⟨?_, ?_, ?_, ?_, ?_, ?_, ?_, ?_, ?_, ?_⟩ <;>
    simp [hv, htb, finish]

/-- C6, instantiated: both handlers receive `application/pdf`. -/
theorem bad_content_type_no_io_witness :
    (handlerUploadVideo cfg0 envBadType).status = 400 ∧
    (handlerUploadVideo cfg0 envBadType).events =
      [Ev.parseMultipartForm (10 <<< 30), Ev.closeFormFile] ∧
    (∀ p, Ev.createTemp p ∉ (handlerUploadVideo cfg0 envBadType).events) ∧
    (∀ p, Ev.copyToFile p ∉ (handlerUploadVideo cfg0 envBadType).events) ∧
    (∀ b k c, Ev.putObject b k c ∉ (handlerUploadVideo cfg0 envBadType).events) ∧
    (handlerUploadThumbnail cfg0 tenvBadType).status = 400 ∧
    (handlerUploadThumbnail cfg0 tenvBadType).events =
      [Ev.parseMultipartForm (10 <<< 20), Ev.closeFormFile] ∧
    (∀ p, Ev.createFile p ∉ (handlerUploadThumbnail cfg0 tenvBadType).events) ∧
    (∀ p, Ev.copyToFile p ∉ (handlerUploadThumbnail cfg0 tenvBadType).events) ∧
    (∀ b k c, Ev.putObject b k c ∉ (handlerUploadThumbnail cfg0 tenvBadType).events) :=
  bad_content_type_no_io cfg0 envBadType tenvBadType
    "v1" "tok" "alice" "application/pdf" "v1" "tok" "alice" "application/pdf"
    rfl rfl rfl rfl rfl (by decide) rfl rfl rfl rfl rfl (by decide) (by decide)

/-- C9: every key a video upload hands to `PutObject` has the form
`aspect/fn.ext`: `aspect` is the classifier's partition, one of
`landscape`, `portrait` or `other`; `fn` is the URL-safe unpadded base64
encoding of the bytes `rand.Read` filled into the 32-byte buffer (the
`randRead 32` event); and `ext` is the second piece of the validated
content-type split at "/", i.e. `mp4`. -/
theorem object_key_format (cfg : ApiConfig) (env : VideoUploadEnv)
    (vID tok uid tempPath : String) (bs : List (Fin 256)) (aspect : String)
    (h1 : env.videoID = some vID)
    (h2 : env.bearerToken = some tok)
    (h3 : env.jwtUserID = some uid)
    (h4 : env.formFileOk = true)
    (h5 : env.mediaTypeParse = some "video/mp4")
    (h6 : env.tempFilePath = some tempPath)
    (h7 : env.copyOk = true)
    (h8 : env.randBytes = some bs)
    (h9 : env.ffmpegOk = true)
    (h10 : env.openProcessedOk = true)
    (h11 : getVideoAspectRatio env.probe = GoOutcome.ok aspect) :
    Ev.putObject cfg.s3Bucket
        (aspect ++ "/" ++ String.mk (base64RawURL bs) ++ "." ++
          (goSplit "video/mp4" "/").getD 1 "") "video/mp4"
      ∈ (handlerUploadVideo cfg env).events ∧
    (goSplit "video/mp4" "/").getD 1 "" = "mp4" ∧
    (aspect = "landscape" ∨ aspect = "portrait" ∨ aspect = "other") ∧
    Ev.randRead 32 ∈ (handlerUploadVideo cfg env).events := by
  refine ⟨?_, by decide, getVideoAspectRatio_ok_values env.probe aspect h11, ?_⟩ <;>
    (simp [handlerUploadVideo, h1, h2, h3, h4, h5, h6, h7, h8, h9, h10, h11,
      finish, respondAfterSign_events]
     repeat' split
     all_goals simp [finish, respondAfterSign_events])

/-- C9, instantiated at the fully successful run `env0`. -/
theorem object_key_format_witness :
    Ev.putObject cfg0.s3Bucket
        ("landscape" ++ "/" ++ String.mk (base64RawURL bytes0) ++ "." ++
          (goSplit "video/mp4" "/").getD 1 "") "video/mp4"
      ∈ (handlerUploadVideo cfg0 env0).events ∧
    (goSplit "video/mp4" "/").getD 1 "" = "mp4" ∧
    ("landscape" = "landscape" ∨ "landscape" = "portrait" ∨
      "landscape" = "other") ∧
    Ev.randRead 32 ∈ (handlerUploadVideo cfg0 env0).events :=
  object_key_format cfg0 env0 "v1" "tok" "alice" "/tmp/tubely-upload.mp4"
    bytes0 "landscape" rfl rfl rfl rfl rfl rfl rfl rfl rfl rfl (by decide)

end Tubely

